import Mathlib

/-!
Verification of the assma signaling server (src/signaling-server.js).

The server keeps two in-memory maps: `rooms` (roomId → room record) and
`userSockets` (userId → socket id).  Socket handlers (`join-room`, `offer`,
`answer`, `ice-candidate`, `leave-room`, `disconnect`), the HTTP
`POST /create-room` endpoint and the hourly idle sweep mutate this state.
We embed each handler as a pure function from the server state (plus the
per-socket fields `socket.userId`, `socket.userName`, `socket.userAvatar`,
`socket.roomId`) to a new state together with the list of emitted messages,
each message addressed the way the code addresses it (to the requesting
socket, to a socket id, to a socket.io room channel with or without the
sender).
-/

namespace Signaling

/-- A room record, as stored by `rooms.set(roomId, {...})`. -/
structure Room where
  id : String
  type : String
  creator : String
  /-- `participants` is a JS `Set`; we model it as its insertion-ordered
  element list (JS `Set` iteration order is insertion order). -/
  participants : List String
  createdAt : Int
  isActive : Bool
deriving DecidableEq, Repr

/-- The per-socket fields the handlers read and write
(`socket.id`, `socket.userId`, `socket.userName`, `socket.userAvatar`,
`socket.roomId`); the optional ones are `undefined` until `join-room`
sets them, and `delete socket.roomId` resets `roomId` to `none`. -/
structure SocketState where
  sid : String
  userId : Option String := none
  userName : Option String := none
  userAvatar : Option String := none
  roomId : Option String := none
deriving DecidableEq, Repr

/-- The module-level mutable state: `const rooms = new Map()` and
`const userSockets = new Map()`, each modelled as a lookup function. -/
structure ServerState where
  rooms : String → Option Room
  userSockets : String → Option String

/-- JS `Map.prototype.set`. -/
def JsMap.set {α : Type} (m : String → Option α) (k : String) (v : α) :
    String → Option α :=
  fun x => if x = k then some v else m x

/-- JS `Map.prototype.delete`. -/
def JsMap.del {α : Type} (m : String → Option α) (k : String) :
    String → Option α :=
  fun x => if x = k then none else m x

/-- JS `map.delete(socket.userId)` where `socket.userId` may be
`undefined` (then no string key matches and the map is unchanged). -/
def JsMap.delMaybe {α : Type} (m : String → Option α) :
    Option String → (String → Option α)
  | none => m
  | some k => JsMap.del m k

/-- JS `Set.prototype.add`: appends the element if it is not present. -/
def SetJs.add (l : List String) (x : String) : List String :=
  if x ∈ l then l else l ++ [x]

/-- JS `set.delete(socket.userId)` where `socket.userId` may be
`undefined`; on the (duplicate-free) element list this removes the at
most one occurrence of the key. -/
def SetJs.delMaybe (l : List String) : Option String → List String
  | none => l
  | some x => l.filter (fun p => p != x)

/-- A roster entry of the `room-joined` payload. -/
structure RosterEntry where
  id : String
  name : String
  avatar : String
  isOnline : Bool
deriving DecidableEq, Repr

/-- The payloads the server emits. -/
inductive Msg where
  | roomError (message : String)
  | roomJoined (roomId : String) (type : String)
      (participants : List RosterEntry) (isCreator : Bool)
  | userJoined (userId userName userAvatar : String) (participantsCount : Nat)
  | offerMsg (senderId senderName : Option String) (sdp : String)
      (type : String) (timestamp : Int)
  | answerMsg (senderId : Option String) (sdp : String) (timestamp : Int)
  | iceCandidateMsg (senderId : Option String) (candidate : String)
      (timestamp : Int)
  | userLeft (userId userName : Option String) (participantsCount : Nat)
  | userDisconnected (userId userName : Option String) (reason : String)
deriving DecidableEq, Repr

/-- An emitted message together with how the code addresses it:
`socket.emit` (back to the requesting socket), `io.to(socketId).emit`
(one socket id), `socket.to(roomId).emit` (the room channel minus the
sender), `io.to(roomId).emit` (the whole room channel). -/
inductive Output where
  | toSender (event : String) (msg : Msg)
  | toSocket (socketId : String) (event : String) (msg : Msg)
  | toRoomExceptSender (roomId : String) (event : String) (msg : Msg)
  | toRoomAll (roomId : String) (event : String) (msg : Msg)
deriving DecidableEq, Repr

/-- The roster `Array.from(room.participants).map(pid => ({...}))` built
inside the `join-room` handler. -/
def roster (ps : List String) (userId userName userAvatar : String) :
    List RosterEntry :=
  ps.map (fun pid =>
    { id := pid
      name := if pid = userId then userName else "Participant"
      avatar := if pid = userId then userAvatar else "👤"
      isOnline := true })

/-- `app.post('/create-room', ...)`: the roomId is
`` `assma-${uuidv4().split('-')[0]}` ``; the random uuid segment is the
`token` argument (the code performs no freshness check on it).  Returns
the new state and the allocated roomId. -/
def createRoom (st : ServerState) (userId : String) (type : String)
    (token : String) (now : Int) : ServerState × String :=
  let roomId := "assma-" ++ token
  ({ st with
      rooms := JsMap.set st.rooms roomId
        { id := roomId
          type := type
          creator := userId
          participants := []
          createdAt := now
          isActive := true } },
   roomId)

/-- The `join-room` handler. -/
def joinRoom (st : ServerState) (sk : SocketState)
    (roomId userId userName userAvatar : String) :
    ServerState × SocketState × List Output :=
  match st.rooms roomId with
  | none => (st, sk, [Output.toSender "room-error" (Msg.roomError "Salle introuvable")])
  | some room =>
    if room.participants.length ≥ 4 then
      (st, sk, [Output.toSender "room-error" (Msg.roomError "Salle pleine")])
    else
      let room' := { room with participants := SetJs.add room.participants userId }
      let sk' := { sk with
        userId := some userId
        userName := some userName
        userAvatar := some userAvatar
        roomId := some roomId }
      let st' : ServerState :=
        { rooms := JsMap.set st.rooms roomId room'
          userSockets := JsMap.set st.userSockets userId sk.sid }
      (st', sk',
        [Output.toSender "room-joined"
          (Msg.roomJoined roomId room.type
            (roster room'.participants userId userName userAvatar)
            (room.creator == userId)),
         Output.toRoomExceptSender roomId "user-joined"
          (Msg.userJoined userId userName userAvatar room'.participants.length)])

/-- The `offer` handler: resolves `targetUserId` in `userSockets` and, if
bound, forwards the sdp to that socket id only; otherwise does nothing. -/
def offerHandler (st : ServerState) (sk : SocketState)
    (targetUserId sdp type : String) (now : Int) : ServerState × List Output :=
  match st.userSockets targetUserId with
  | some targetSocketId =>
      (st, [Output.toSocket targetSocketId "offer"
        (Msg.offerMsg sk.userId sk.userName sdp type now)])
  | none => (st, [])

/-- The `answer` handler. -/
def answerHandler (st : ServerState) (sk : SocketState)
    (targetUserId sdp : String) (now : Int) : ServerState × List Output :=
  match st.userSockets targetUserId with
  | some targetSocketId =>
      (st, [Output.toSocket targetSocketId "answer"
        (Msg.answerMsg sk.userId sdp now)])
  | none => (st, [])

/-- The `ice-candidate` handler. -/
def iceCandidateHandler (st : ServerState) (sk : SocketState)
    (targetUserId candidate : String) (now : Int) : ServerState × List Output :=
  match st.userSockets targetUserId with
  | some targetSocketId =>
      (st, [Output.toSocket targetSocketId "ice-candidate"
        (Msg.iceCandidateMsg sk.userId candidate now)])
  | none => (st, [])

/-- The `leave-room` handler: early return when `socket.roomId` is unset;
otherwise removes the participant and its binding, notifies the room,
deletes the room when it became empty, and clears `socket.roomId`. -/
def leaveRoom (st : ServerState) (sk : SocketState) :
    ServerState × SocketState × List Output :=
  match sk.roomId with
  | none => (st, sk, [])
  | some rid =>
    match st.rooms rid with
    | none => (st, { sk with roomId := none }, [])
    | some room =>
      let room' := { room with participants := SetJs.delMaybe room.participants sk.userId }
      let st' : ServerState :=
        { rooms :=
            if room'.participants.length = 0 then JsMap.del st.rooms rid
            else JsMap.set st.rooms rid room'
          userSockets := JsMap.delMaybe st.userSockets sk.userId }
      (st', { sk with roomId := none },
        [Output.toRoomExceptSender rid "user-left"
          (Msg.userLeft sk.userId sk.userName room'.participants.length)])

/-- The `disconnect` handler (the socket itself disappears, so only the
server state and the outputs remain). -/
def disconnectHandler (st : ServerState) (sk : SocketState) :
    ServerState × List Output :=
  match sk.roomId with
  | none => (st, [])
  | some rid =>
    match st.rooms rid with
    | none => (st, [])
    | some room =>
      let room' := { room with participants := SetJs.delMaybe room.participants sk.userId }
      let st' : ServerState :=
        { rooms :=
            if room'.participants.length = 0 then JsMap.del st.rooms rid
            else JsMap.set st.rooms rid room'
          userSockets := JsMap.delMaybe st.userSockets sk.userId }
      (st', [Output.toRoomAll rid "user-disconnected"
        (Msg.userDisconnected sk.userId sk.userName "disconnected")])

/-- The hourly `setInterval` sweep: deletes every room whose `createdAt`
is older than one hour before `now` and whose participant set is empty. -/
def sweepIdle (st : ServerState) (now : Int) : ServerState :=
  { st with
      rooms := fun rid =>
        match st.rooms rid with
        | none => none
        | some room =>
          if room.createdAt < now - 60 * 60 * 1000 ∧ room.participants.length = 0
          then none
          else some room }

/-- The state at process start: both maps empty. -/
def initialState : ServerState :=
  { rooms := fun _ => none, userSockets := fun _ => none }

/-- One dispatched event, as a relation on the module-level state; the
per-socket fields and the message parameters are arbitrary. -/
inductive Step : ServerState → ServerState → Prop
  | createStep (st : ServerState) (userId type token : String) (now : Int) :
      Step st (createRoom st userId type token now).1
  | joinStep (st : ServerState) (sk : SocketState)
      (roomId userId userName userAvatar : String) :
      Step st (joinRoom st sk roomId userId userName userAvatar).1
  | offerStep (st : ServerState) (sk : SocketState) (t s ty : String) (now : Int) :
      Step st (offerHandler st sk t s ty now).1
  | answerStep (st : ServerState) (sk : SocketState) (t s : String) (now : Int) :
      Step st (answerHandler st sk t s now).1
  | iceStep (st : ServerState) (sk : SocketState) (t c : String) (now : Int) :
      Step st (iceCandidateHandler st sk t c now).1
  | leaveStep (st : ServerState) (sk : SocketState) :
      Step st (leaveRoom st sk).1
  | disconnectStep (st : ServerState) (sk : SocketState) :
      Step st (disconnectHandler st sk).1
  | sweepStep (st : ServerState) (now : Int) :
      Step st (sweepIdle st now)

/-- A server state reachable from process start by dispatched events. -/
def Reachable (st : ServerState) : Prop :=
  Relation.ReflTransGen Step initialState st

/-- Every room in the registry has at most 4 participants. -/
def capInv (st : ServerState) : Prop :=
  ∀ rid room, st.rooms rid = some room → room.participants.length ≤ 4

lemma SetJs.add_length_le (l : List String) (x : String) :
    (SetJs.add l x).length ≤ l.length + 1 := by
  unfold SetJs.add
  split
  · exact Nat.le_succ _
  · simp

lemma SetJs.delMaybe_length_le (l : List String) (u : Option String) :
    (SetJs.delMaybe l u).length ≤ l.length := by
  cases u with
  | none => exact Nat.le_refl _
  | some x => exact List.length_filter_le _ _

lemma capInv_step {st st' : ServerState} (h : capInv st) (hs : Step st st') :
    capInv st' := by
  cases hs with
  | createStep userId type token now =>
    intro rid room hr
    unfold createRoom JsMap.set at hr
    dsimp only at hr
    split at hr
    · cases hr; simp
    · exact h rid room hr
  | joinStep sk roomId userId userName userAvatar =>
    intro rid room hr
    unfold joinRoom at hr
    split at hr
    · exact h rid room hr
    · rename_i r0 hrooms
      split at hr
      · exact h rid room hr
      · rename_i hfull
        dsimp only at hr
        simp only [JsMap.set] at hr
        split at hr
        · cases hr
          have hlt : r0.participants.length < 4 := Nat.lt_of_not_le hfull
          calc (SetJs.add r0.participants userId).length
              ≤ r0.participants.length + 1 := SetJs.add_length_le _ _
            _ ≤ 4 := Nat.succ_le_of_lt hlt
        · exact h rid room hr
  | offerStep sk t s ty now =>
    intro rid room hr
    unfold offerHandler at hr
    split at hr
    · exact h rid room hr
    · exact h rid room hr
  | answerStep sk t s now =>
    intro rid room hr
    unfold answerHandler at hr
    split at hr
    · exact h rid room hr
    · exact h rid room hr
  | iceStep sk t c now =>
    intro rid room hr
    unfold iceCandidateHandler at hr
    split at hr
    · exact h rid room hr
    · exact h rid room hr
  | leaveStep sk =>
    intro rid room hr
    unfold leaveRoom at hr
    split at hr
    · exact h rid room hr
    · rename_i r hrid
      split at hr
      · exact h rid room hr
      · rename_i r0 hrooms
        dsimp only at hr
        split at hr
        · simp only [JsMap.del] at hr
          split at hr
          · cases hr
          · exact h rid room hr
        · simp only [JsMap.set] at hr
          split at hr
          · cases hr
            exact le_trans (SetJs.delMaybe_length_le _ _) (h r r0 hrooms)
          · exact h rid room hr
  | disconnectStep sk =>
    intro rid room hr
    unfold disconnectHandler at hr
    split at hr
    · exact h rid room hr
    · rename_i r hrid
      split at hr
      · exact h rid room hr
      · rename_i r0 hrooms
        dsimp only at hr
        split at hr
        · simp only [JsMap.del] at hr
          split at hr
          · cases hr
          · exact h rid room hr
        · simp only [JsMap.set] at hr
          split at hr
          · cases hr
            exact le_trans (SetJs.delMaybe_length_le _ _) (h r r0 hrooms)
          · exact h rid room hr
  | sweepStep now =>
    intro rid room hr
    unfold sweepIdle at hr
    dsimp only at hr
    split at hr
    · cases hr
    · rename_i r0 hrooms
      split at hr
      · cases hr
      · have hre : r0 = room := by injection hr
        subst hre
        exact h rid r0 hrooms

lemma capInv_reachable {st : ServerState} (h : Reachable st) : capInv st := by
  induction h with
  | refl => intro rid room hr; cases hr
  | tail _ hstep ih => exact capInv_step ih hstep

/-- A concrete full room used to exercise the RoomFull path. -/
def roomFull4 : Room :=
  { id := "assma-full", type := "video", creator := "u1",
    participants := ["u1", "u2", "u3", "u4"], createdAt := 0, isActive := true }

/-- A concrete registry holding only `roomFull4`. -/
def stFull4 : ServerState :=
  { rooms := JsMap.set initialState.rooms "assma-full" roomFull4,
    userSockets := fun _ => none }

/-- A concrete fresh socket. -/
def skW : SocketState := { sid := "s9" }

/-- The room created by `createRoom initialState "u1" "video" "tok1" 0`. -/
def roomW1 : Room :=
  { id := "assma-tok1", type := "video", creator := "u1",
    participants := [], createdAt := 0, isActive := true }

/-- Claim C1: in every reachable registry state every room's participant
set has size at most 4, and a join-room request against a room whose
participant set already has size at least 4 emits the RoomFull room-error
("Salle pleine") to the requester and leaves the registry, the binding map
and the socket state unchanged. -/
theorem claim_C1_capacity :
    (∀ st, Reachable st → ∀ rid room, st.rooms rid = some room →
      room.participants.length ≤ 4) ∧
    (∀ st sk roomId userId userName userAvatar room,
      st.rooms roomId = some room → 4 ≤ room.participants.length →
      joinRoom st sk roomId userId userName userAvatar =
        (st, sk, [Output.toSender "room-error" (Msg.roomError "Salle pleine")])) := by
  constructor
  · intro st hst rid room hr
    exact capInv_reachable hst rid room hr
  · intro st sk roomId userId userName userAvatar room hr hfull
    simp only [joinRoom, hr]
    rw [if_pos hfull]

/-- Witness for C1: a state reached by one create-room call satisfies the
capacity bound, and a join against the concrete full room `roomFull4` is
refused with "Salle pleine" and no state change. -/
theorem claim_C1_capacity_witness :
    roomW1.participants.length ≤ 4 ∧
    joinRoom stFull4 skW "assma-full" "u5" "Eve" "🙂" =
      (stFull4, skW, [Output.toSender "room-error" (Msg.roomError "Salle pleine")]) :=
  ⟨claim_C1_capacity.1 _
      (Relation.ReflTransGen.single (Step.createStep initialState "u1" "video" "tok1" 0))
      "assma-tok1" roomW1 (by rfl),
   claim_C1_capacity.2 stFull4 skW "assma-full" "u5" "Eve" "🙂" roomFull4
      (by rfl) (by decide)⟩

/-- Claim C4: a join-room request naming a roomId absent from the registry
emits the RoomNotFound room-error ("Salle introuvable") to the requester
and mutates nothing: registry, binding map and socket state are returned
unchanged. -/
theorem claim_C4_room_not_found :
    ∀ st sk roomId userId userName userAvatar,
      st.rooms roomId = none →
      joinRoom st sk roomId userId userName userAvatar =
        (st, sk, [Output.toSender "room-error" (Msg.roomError "Salle introuvable")]) := by
  intro st sk roomId userId userName userAvatar h
  simp only [joinRoom, h]

/-- Witness for C4 at a concrete missing roomId. -/
theorem claim_C4_room_not_found_witness :
    joinRoom stFull4 skW "assma-missing" "u9" "Ida" "🙂" =
      (stFull4, skW, [Output.toSender "room-error" (Msg.roomError "Salle introuvable")]) :=
  claim_C4_room_not_found stFull4 skW "assma-missing" "u9" "Ida" "🙂" (by rfl)

/-- Claim C6: leave-room on a socket whose `roomId` is unset (never joined
or already left) emits nothing and mutates nothing; and since every
leave-room leaves the socket with `roomId` unset, a second leave-room after
any leave-room is such a no-op, i.e. leave is idempotent at the public
interface. -/
theorem claim_C6_leave_idempotent :
    (∀ st sk, sk.roomId = none → leaveRoom st sk = (st, sk, [])) ∧
    (∀ st₀ sk₀ st₁,
      leaveRoom st₁ (leaveRoom st₀ sk₀).2.1 =
        (st₁, (leaveRoom st₀ sk₀).2.1, [])) := by
  have h1 : ∀ st sk, sk.roomId = none → leaveRoom st sk = (st, sk, []) := by
    intro st sk h
    simp only [leaveRoom, h]
  refine ⟨h1, ?_⟩
  intro st₀ sk₀ st₁
  apply h1
  unfold leaveRoom
  split
  · rename_i heq; exact heq
  · rename_i rid heq
    split
    · rfl
    · rfl

/-- A socket that has joined `roomFull4` as "u1". -/
def skL : SocketState :=
  { sid := "s1", userId := some "u1", userName := some "Al",
    userAvatar := some "🙂", roomId := some "assma-full" }

/-- Witness for C6: a never-joined socket's leave is a no-op, and the
second of two consecutive leaves of a joined socket is a no-op. -/
theorem claim_C6_leave_idempotent_witness :
    leaveRoom stFull4 skW = (stFull4, skW, []) ∧
    leaveRoom stFull4 (leaveRoom stFull4 skL).2.1 =
      (stFull4, (leaveRoom stFull4 skL).2.1, []) :=
  ⟨claim_C6_leave_idempotent.1 stFull4 skW (by rfl),
   claim_C6_leave_idempotent.2 stFull4 skL stFull4⟩

/-- Claim C2: when a leave-room or disconnect event removes the last
participant from an existing room (the participant set is empty after the
removal), the room is deleted from the registry as part of the same
operation. -/
theorem claim_C2_empty_room_deleted :
    ∀ st sk rid room,
      sk.roomId = some rid → st.rooms rid = some room →
      (SetJs.delMaybe room.participants sk.userId).length = 0 →
      (leaveRoom st sk).1.rooms rid = none ∧
      (disconnectHandler st sk).1.rooms rid = none := by
  intro st sk rid room hrid hroom hlen
  constructor
  · simp only [leaveRoom, hrid, hroom]
    rw [if_pos hlen]
    simp [JsMap.del]
  · simp only [disconnectHandler, hrid, hroom]
    rw [if_pos hlen]
    simp [JsMap.del]

/-- A room whose only participant is "u1". -/
def roomSolo : Room :=
  { id := "assma-solo", type := "video", creator := "u1",
    participants := ["u1"], createdAt := 0, isActive := true }

/-- A registry holding only `roomSolo`, with "u1" bound to socket "s1". -/
def stSolo : ServerState :=
  { rooms := JsMap.set initialState.rooms "assma-solo" roomSolo,
    userSockets := JsMap.set initialState.userSockets "u1" "s1" }

/-- The socket of "u1" joined to `roomSolo`. -/
def skSolo : SocketState :=
  { sid := "s1", userId := some "u1", userName := some "Al",
    userAvatar := some "🙂", roomId := some "assma-solo" }

/-- Witness for C2: leaving (or disconnecting) the sole participant of
`roomSolo` deletes the room. -/
theorem claim_C2_empty_room_deleted_witness :
    (leaveRoom stSolo skSolo).1.rooms "assma-solo" = none ∧
    (disconnectHandler stSolo skSolo).1.rooms "assma-solo" = none :=
  claim_C2_empty_room_deleted stSolo skSolo "assma-solo" roomSolo
    (by rfl) (by rfl) (by decide)

/-- Claim C3: a relay message (offer, answer or ice-candidate) addressed
to a targetUserId bound in `userSockets` is forwarded, payload fields
unchanged, to exactly the one socket id bound to that user, and the server
state is unchanged; when the targetUserId is unbound, nothing is emitted
(in particular no error reaches the sender) and the state is unchanged. -/
theorem claim_C3_relay :
    (∀ st sk targetUserId sdp ty now tsid,
      st.userSockets targetUserId = some tsid →
      offerHandler st sk targetUserId sdp ty now =
        (st, [Output.toSocket tsid "offer"
          (Msg.offerMsg sk.userId sk.userName sdp ty now)])) ∧
    (∀ st sk targetUserId sdp ty now,
      st.userSockets targetUserId = none →
      offerHandler st sk targetUserId sdp ty now = (st, [])) ∧
    (∀ st sk targetUserId sdp now tsid,
      st.userSockets targetUserId = some tsid →
      answerHandler st sk targetUserId sdp now =
        (st, [Output.toSocket tsid "answer" (Msg.answerMsg sk.userId sdp now)])) ∧
    (∀ st sk targetUserId sdp now,
      st.userSockets targetUserId = none →
      answerHandler st sk targetUserId sdp now = (st, [])) ∧
    (∀ st sk targetUserId cand now tsid,
      st.userSockets targetUserId = some tsid →
      iceCandidateHandler st sk targetUserId cand now =
        (st, [Output.toSocket tsid "ice-candidate"
          (Msg.iceCandidateMsg sk.userId cand now)])) ∧
    (∀ st sk targetUserId cand now,
      st.userSockets targetUserId = none →
      iceCandidateHandler st sk targetUserId cand now = (st, [])) := by
  refine ⟨?_, ?_, ?_, ?_, ?_, ?_⟩
  · intro st sk targetUserId sdp ty now tsid h
    simp only [offerHandler, h]
  · intro st sk targetUserId sdp ty now h
    simp only [offerHandler, h]
  · intro st sk targetUserId sdp now tsid h
    simp only [answerHandler, h]
  · intro st sk targetUserId sdp now h
    simp only [answerHandler, h]
  · intro st sk targetUserId cand now tsid h
    simp only [iceCandidateHandler, h]
  · intro st sk targetUserId cand now h
    simp only [iceCandidateHandler, h]

/-- Witness for C3 against `stSolo` (where "u1" is bound to "s1" and "u2"
is unbound): each of the three relay handlers delivers to "s1" when
addressed to "u1" and emits nothing when addressed to "u2". -/
theorem claim_C3_relay_witness :
    offerHandler stSolo skW "u1" "sdpX" "video-offer" 7 =
      (stSolo, [Output.toSocket "s1" "offer"
        (Msg.offerMsg none none "sdpX" "video-offer" 7)]) ∧
    offerHandler stSolo skW "u2" "sdpX" "video-offer" 7 = (stSolo, []) ∧
    answerHandler stSolo skW "u1" "sdpY" 8 =
      (stSolo, [Output.toSocket "s1" "answer" (Msg.answerMsg none "sdpY" 8)]) ∧
    answerHandler stSolo skW "u2" "sdpY" 8 = (stSolo, []) ∧
    iceCandidateHandler stSolo skW "u1" "candZ" 9 =
      (stSolo, [Output.toSocket "s1" "ice-candidate"
        (Msg.iceCandidateMsg none "candZ" 9)]) ∧
    iceCandidateHandler stSolo skW "u2" "candZ" 9 = (stSolo, []) :=
  ⟨claim_C3_relay.1 stSolo skW "u1" "sdpX" "video-offer" 7 "s1" (by rfl),
   claim_C3_relay.2.1 stSolo skW "u2" "sdpX" "video-offer" 7 (by rfl),
   claim_C3_relay.2.2.1 stSolo skW "u1" "sdpY" 8 "s1" (by rfl),
   claim_C3_relay.2.2.2.1 stSolo skW "u2" "sdpY" 8 (by rfl),
   claim_C3_relay.2.2.2.2.1 stSolo skW "u1" "candZ" 9 "s1" (by rfl),
   claim_C3_relay.2.2.2.2.2 stSolo skW "u2" "candZ" 9 (by rfl)⟩

/-- Claim C5: one sweep tick deletes exactly the rooms that are both empty
and created strictly more than one hour before `now`; a room with at least
one participant always survives, any room not meeting both conditions
survives with its record unchanged, and no room appears. -/
theorem claim_C5_sweep :
    ∀ st now rid,
      (st.rooms rid = none → (sweepIdle st now).rooms rid = none) ∧
      (∀ room, st.rooms rid = some room →
        (((sweepIdle st now).rooms rid = none) ↔
          (room.createdAt < now - 60 * 60 * 1000 ∧ room.participants.length = 0)) ∧
        (0 < room.participants.length →
          (sweepIdle st now).rooms rid = some room) ∧
        (¬ (room.createdAt < now - 60 * 60 * 1000 ∧ room.participants.length = 0) →
          (sweepIdle st now).rooms rid = some room)) := by
  intro st now rid
  constructor
  · intro h
    simp only [sweepIdle, h]
  · intro room h
    simp only [sweepIdle, h]
    by_cases hc : room.createdAt < now - 60 * 60 * 1000 ∧ room.participants.length = 0
    · rw [if_pos hc]
      refine ⟨⟨fun _ => hc, fun _ => rfl⟩, ?_, ?_⟩
      · intro hpos
        exact absurd (hc.2 ▸ hpos) (lt_irrefl 0)
      · intro hnc
        exact absurd hc hnc
    · rw [if_neg hc]
      exact ⟨⟨fun he => absurd he (Option.some_ne_none room),
              fun hcc => absurd hcc hc⟩,
             fun _ => rfl, fun _ => rfl⟩

/-- An old empty room (created at time 0). -/
def roomOldEmpty : Room :=
  { id := "assma-old", type := "video", creator := "u1",
    participants := [], createdAt := 0, isActive := true }

/-- An equally old room still holding one participant. -/
def roomOldBusy : Room :=
  { id := "assma-busy", type := "video", creator := "u2",
    participants := ["u2"], createdAt := 0, isActive := true }

/-- A registry holding `roomOldEmpty` and `roomOldBusy`. -/
def stSweep : ServerState :=
  { rooms := JsMap.set (JsMap.set initialState.rooms "assma-old" roomOldEmpty)
      "assma-busy" roomOldBusy,
    userSockets := fun _ => none }

/-- Witness for C5 at `now` = two hours: the old empty room is swept, the
equally old busy room survives unchanged. -/
theorem claim_C5_sweep_witness :
    (sweepIdle stSweep 7200000).rooms "assma-old" = none ∧
    (sweepIdle stSweep 7200000).rooms "assma-busy" = some roomOldBusy ∧
    (sweepIdle stSweep 7200000).rooms "assma-gone" = none :=
  ⟨((claim_C5_sweep stSweep 7200000 "assma-old").2 roomOldEmpty (by rfl)).1.mpr
      (by decide),
   ((claim_C5_sweep stSweep 7200000 "assma-busy").2 roomOldBusy (by rfl)).2.1
      (by decide),
   (claim_C5_sweep stSweep 7200000 "assma-gone").1 (by rfl)⟩

/-- Claim C7 (amended): create-room returns the roomId "assma-" ++ token
for the generated uuid segment and stores a fresh room record (empty
participant set, the requesting creator and type, the current time) under
that id; every other room is unchanged; and whenever the generated id is
not already present in the registry, no existing room is overwritten. -/
theorem claim_C7_create_room :
    ∀ st userId ty token now,
      (createRoom st userId ty token now).2 = "assma-" ++ token ∧
      (createRoom st userId ty token now).1.rooms ("assma-" ++ token) =
        some { id := "assma-" ++ token, type := ty, creator := userId,
               participants := [], createdAt := now, isActive := true } ∧
      (∀ rid, rid ≠ "assma-" ++ token →
        (createRoom st userId ty token now).1.rooms rid = st.rooms rid) ∧
      (st.rooms ("assma-" ++ token) = none →
        ∀ rid room, st.rooms rid = some room →
          (createRoom st userId ty token now).1.rooms rid = some room) := by
  intro st userId ty token now
  refine ⟨rfl, ?_, ?_, ?_⟩
  · simp [createRoom, JsMap.set]
  · intro rid hne
    simp [createRoom, JsMap.set, hne]
  · intro hfresh rid room hroom
    simp only [createRoom, JsMap.set]
    by_cases hrid : rid = "assma-" ++ token
    · rw [hrid] at hroom
      rw [hfresh] at hroom
      cases hroom
    · rw [if_neg hrid]
      exact hroom

/-- The socket used to build the C7 counterexample state. -/
def skC7 : SocketState := { sid := "s1" }

/-- A registry state reached from process start by creating the room
"assma-ab12" (uuid segment "ab12") and joining it as "u1". -/
def stC7 : ServerState :=
  (joinRoom (createRoom initialState "u1" "video" "ab12" 0).1 skC7
    "assma-ab12" "u1" "Alice" "🙂").1

/-- Counterexample to claim C7 as stated: `stC7` is reachable and already
contains the room "assma-ab12" (with participant "u1"); a create-room
request whose random uuid segment is again "ab12" returns that same
roomId — not fresh — and silently replaces the existing room's state with
a brand-new empty room, because the code never checks the generated id for
freshness. -/
theorem claim_C7_counterexample :
    Reachable stC7 ∧
    stC7.rooms "assma-ab12" =
      some { id := "assma-ab12", type := "video", creator := "u1",
             participants := ["u1"], createdAt := 0, isActive := true } ∧
    (createRoom stC7 "u2" "video" "ab12" 5).2 = "assma-ab12" ∧
    (createRoom stC7 "u2" "video" "ab12" 5).1.rooms "assma-ab12" =
      some { id := "assma-ab12", type := "video", creator := "u2",
             participants := [], createdAt := 5, isActive := true } := by
  refine ⟨?_, by decide, rfl, by decide⟩
  exact Relation.ReflTransGen.tail
    (Relation.ReflTransGen.single (Step.createStep initialState "u1" "video" "ab12" 0))
    (Step.joinStep _ skC7 "assma-ab12" "u1" "Alice" "🙂")

/-- Witness for the amended C7 at concrete inputs (creating inside the
already-populated registry `stSolo` with a non-colliding token). -/
theorem claim_C7_create_room_witness :
    (createRoom stSolo "u7" "audio" "cd34" 11).2 = "assma-cd34" ∧
    (createRoom stSolo "u7" "audio" "cd34" 11).1.rooms "assma-cd34" =
      some { id := "assma-cd34", type := "audio", creator := "u7",
             participants := [], createdAt := 11, isActive := true } ∧
    (createRoom stSolo "u7" "audio" "cd34" 11).1.rooms "assma-solo" =
      stSolo.rooms "assma-solo" ∧
    (createRoom stSolo "u7" "audio" "cd34" 11).1.rooms "assma-solo" =
      some roomSolo :=
  ⟨(claim_C7_create_room stSolo "u7" "audio" "cd34" 11).1,
   (claim_C7_create_room stSolo "u7" "audio" "cd34" 11).2.1,
   (claim_C7_create_room stSolo "u7" "audio" "cd34" 11).2.2.1 "assma-solo" (by decide),
   (claim_C7_create_room stSolo "u7" "audio" "cd34" 11).2.2.2 (by decide)
     "assma-solo" roomSolo (by rfl)⟩

lemma joinRoom_success (st : ServerState) (sk : SocketState) (rid u n a : String)
    (room : Room) (hroom : st.rooms rid = some room)
    (hlt : room.participants.length < 4) :
    joinRoom st sk rid u n a =
      (⟨JsMap.set st.rooms rid { room with participants := SetJs.add room.participants u },
        JsMap.set st.userSockets u sk.sid⟩,
       { sk with userId := some u, userName := some n, userAvatar := some a, roomId := some rid },
       [Output.toSender "room-joined"
          (Msg.roomJoined rid room.type
            (roster (SetJs.add room.participants u) u n a) (room.creator == u)),
        Output.toRoomExceptSender rid "user-joined"
          (Msg.userJoined u n a (SetJs.add room.participants u).length)]) := by
  simp only [joinRoom, hroom]
  rw [if_neg (Nat.not_le.mpr hlt)]

/-- Claim C8: on a successful join, the joiner's userId is bound to its
socket id, the room's participant set gains the joiner, the joiner is sent
room-joined with the post-join roster and an isCreator flag true exactly
when its userId equals the room's creator, and the rest of the room is
sent user-joined carrying the post-join participant count. -/
theorem claim_C8_join_success :
    ∀ st sk rid u n a room,
      st.rooms rid = some room → room.participants.length < 4 →
      (joinRoom st sk rid u n a).1.userSockets u = some sk.sid ∧
      (joinRoom st sk rid u n a).1.rooms rid =
        some { room with participants := SetJs.add room.participants u } ∧
      ∃ b : Bool,
        (joinRoom st sk rid u n a).2.2 =
          [Output.toSender "room-joined"
            (Msg.roomJoined rid room.type
              (roster (SetJs.add room.participants u) u n a) b),
           Output.toRoomExceptSender rid "user-joined"
            (Msg.userJoined u n a (SetJs.add room.participants u).length)] ∧
        (b = true ↔ room.creator = u) := by
  intro st sk rid u n a room hroom hlt
  rw [joinRoom_success st sk rid u n a room hroom hlt]
  refine ⟨by simp [JsMap.set], by simp [JsMap.set], room.creator == u, rfl, ?_⟩
  exact beq_iff_eq

/-- Witness for C8: "u2" joins `roomSolo` (creator "u1") in `stSolo` with
socket `skW`. -/
theorem claim_C8_join_success_witness :
    (joinRoom stSolo skW "assma-solo" "u2" "Bob" "🤖").1.userSockets "u2" =
      some skW.sid ∧
    (joinRoom stSolo skW "assma-solo" "u2" "Bob" "🤖").1.rooms "assma-solo" =
      some { roomSolo with participants := SetJs.add roomSolo.participants "u2" } ∧
    ∃ b : Bool,
      (joinRoom stSolo skW "assma-solo" "u2" "Bob" "🤖").2.2 =
        [Output.toSender "room-joined"
          (Msg.roomJoined "assma-solo" roomSolo.type
            (roster (SetJs.add roomSolo.participants "u2") "u2" "Bob" "🤖") b),
         Output.toRoomExceptSender "assma-solo" "user-joined"
          (Msg.userJoined "u2" "Bob" "🤖"
            (SetJs.add roomSolo.participants "u2").length)] ∧
      (b = true ↔ roomSolo.creator = "u2") :=
  claim_C8_join_success stSolo skW "assma-solo" "u2" "Bob" "🤖" roomSolo
    (by rfl) (by decide)

/-- Claim C10: in the room-joined roster sent to a joining client, only
the joiner's own entry carries the supplied userName and userAvatar; every
other participant is reported with the placeholder name "Participant" and
placeholder avatar "👤", all entries with isOnline true; and the roster
ids are exactly the post-join participant set. -/
theorem claim_C10_roster_placeholder :
    ∀ st sk rid u n a room,
      st.rooms rid = some room → room.participants.length < 4 →
      ∃ R ty b,
        ((joinRoom st sk rid u n a).2.2).head? =
          some (Output.toSender "room-joined" (Msg.roomJoined rid ty R b)) ∧
        R.map (fun e => e.id) = SetJs.add room.participants u ∧
        (∀ e ∈ R, e.id = u → e.name = n ∧ e.avatar = a ∧ e.isOnline = true) ∧
        (∀ e ∈ R, e.id ≠ u →
          e.name = "Participant" ∧ e.avatar = "👤" ∧ e.isOnline = true) := by
  intro st sk rid u n a room hroom hlt
  rw [joinRoom_success st sk rid u n a room hroom hlt]
  refine ⟨roster (SetJs.add room.participants u) u n a, room.type,
    room.creator == u, rfl, ?_, ?_, ?_⟩
  · simp only [roster, List.map_map]
    exact List.map_id _
  · intro e he hid
    obtain ⟨pid, hpid, rfl⟩ := List.mem_map.mp he
    dsimp at hid ⊢
    rw [if_pos hid, if_pos hid]
    exact ⟨rfl, rfl, rfl⟩
  · intro e he hid
    obtain ⟨pid, hpid, rfl⟩ := List.mem_map.mp he
    dsimp at hid ⊢
    rw [if_neg hid, if_neg hid]
    exact ⟨rfl, rfl, rfl⟩

/-- Witness for C10: the roster "u2" receives on joining `roomSolo`. -/
theorem claim_C10_roster_placeholder_witness :
    ∃ R ty b,
      ((joinRoom stSolo skW "assma-solo" "u2" "Bob" "🤖").2.2).head? =
        some (Output.toSender "room-joined" (Msg.roomJoined "assma-solo" ty R b)) ∧
      R.map (fun e => e.id) = SetJs.add roomSolo.participants "u2" ∧
      (∀ e ∈ R, e.id = "u2" → e.name = "Bob" ∧ e.avatar = "🤖" ∧ e.isOnline = true) ∧
      (∀ e ∈ R, e.id ≠ "u2" →
        e.name = "Participant" ∧ e.avatar = "👤" ∧ e.isOnline = true) :=
  claim_C10_roster_placeholder stSolo skW "assma-solo" "u2" "Bob" "🤖" roomSolo
    (by rfl) (by decide)

lemma not_mem_filter_ne (l : List String) (x : String) :
    x ∉ l.filter (fun p => p != x) := by
  intro h
  have h2 := (List.mem_filter.mp h).2
  simp at h2

/-- Whether `uid` is currently in room `rid`'s participant set (false when
the room is absent from the registry). -/
def roomHasParticipant (st : ServerState) (rid uid : String) : Bool :=
  match st.rooms rid with
  | none => false
  | some room => decide (uid ∈ room.participants)

lemma disconnect_effects (st : ServerState) (sk : SocketState) (rid u : String)
    (room : Room) (hrid : sk.roomId = some rid) (huid : sk.userId = some u)
    (hroom : st.rooms rid = some room) :
    (disconnectHandler st sk).1.userSockets u = none ∧
    roomHasParticipant (disconnectHandler st sk).1 rid u = false := by
  simp only [disconnectHandler, hrid, hroom, huid, SetJs.delMaybe, JsMap.delMaybe]
  constructor
  · simp [JsMap.del]
  · unfold roomHasParticipant
    dsimp only
    split
    · rfl
    · rename_i room2 heq
      split at heq
      · simp [JsMap.del] at heq
      · simp only [JsMap.set, if_true] at heq
        injection heq with h
        subst h
        simp only [decide_eq_false_iff_not]
        exact not_mem_filter_ne _ _

/-- Claim C9 (implicit): after a clientId u joins on socket sk₁ and then
joins again on socket sk₂ (the silent rebind), a transport disconnect of
the stale socket sk₁ still removes u from the binding map and from the
room's participant set, even though sk₂ was the currently bound handle:
before the disconnect u resolves to sk₂.sid, after it u is unbound, the
room no longer lists u, and an offer relayed to u is silently dropped. -/
theorem claim_C9_stale_disconnect :
    ∀ st sk₁ sk₂ skq rid u n₁ a₁ n₂ a₂ sdp ty now room,
      st.rooms rid = some room →
      room.participants.length < 4 →
      (SetJs.add room.participants u).length < 4 →
      (joinRoom (joinRoom st sk₁ rid u n₁ a₁).1 sk₂ rid u n₂ a₂).1.userSockets u =
        some sk₂.sid ∧
      (disconnectHandler
          (joinRoom (joinRoom st sk₁ rid u n₁ a₁).1 sk₂ rid u n₂ a₂).1
          (joinRoom st sk₁ rid u n₁ a₁).2.1).1.userSockets u = none ∧
      roomHasParticipant
        (disconnectHandler
          (joinRoom (joinRoom st sk₁ rid u n₁ a₁).1 sk₂ rid u n₂ a₂).1
          (joinRoom st sk₁ rid u n₁ a₁).2.1).1 rid u = false ∧
      offerHandler
        (disconnectHandler
          (joinRoom (joinRoom st sk₁ rid u n₁ a₁).1 sk₂ rid u n₂ a₂).1
          (joinRoom st sk₁ rid u n₁ a₁).2.1).1 skq u sdp ty now =
        ((disconnectHandler
          (joinRoom (joinRoom st sk₁ rid u n₁ a₁).1 sk₂ rid u n₂ a₂).1
          (joinRoom st sk₁ rid u n₁ a₁).2.1).1, []) := by
  intro st sk₁ sk₂ skq rid u n₁ a₁ n₂ a₂ sdp ty now room hroom hlt1 hlt2
  have e₁ := joinRoom_success st sk₁ rid u n₁ a₁ room hroom hlt1
  have hr1 : (joinRoom st sk₁ rid u n₁ a₁).1.rooms rid =
      some { room with participants := SetJs.add room.participants u } := by
    rw [e₁]
    simp [JsMap.set]
  have e₂ := joinRoom_success (joinRoom st sk₁ rid u n₁ a₁).1 sk₂ rid u n₂ a₂
      { room with participants := SetJs.add room.participants u } hr1 hlt2
  have hsk1r : (joinRoom st sk₁ rid u n₁ a₁).2.1.roomId = some rid := by rw [e₁]
  have hsk1u : (joinRoom st sk₁ rid u n₁ a₁).2.1.userId = some u := by rw [e₁]
  have hr2 : (joinRoom (joinRoom st sk₁ rid u n₁ a₁).1 sk₂ rid u n₂ a₂).1.rooms rid =
      some { room with participants := SetJs.add (SetJs.add room.participants u) u } := by
    rw [e₂]
    simp [JsMap.set]
  have hd := disconnect_effects
    (joinRoom (joinRoom st sk₁ rid u n₁ a₁).1 sk₂ rid u n₂ a₂).1
    (joinRoom st sk₁ rid u n₁ a₁).2.1 rid u
    { room with participants := SetJs.add (SetJs.add room.participants u) u }
    hsk1r hsk1u hr2
  refine ⟨?_, hd.1, hd.2, ?_⟩
  · rw [e₂]
    simp [JsMap.set]
  · simp only [offerHandler, hd.1]

/-- The first socket "u1" joins on. -/
def skA : SocketState := { sid := "sA" }

/-- The second socket "u1" rebinds to. -/
def skB : SocketState := { sid := "sB" }

/-- State and socket after "u1" joins `roomSolo` on `skA`. -/
def joinA : ServerState × SocketState × List Output :=
  joinRoom stSolo skA "assma-solo" "u1" "Ann" "🙂"

/-- State and socket after "u1" rejoins on `skB`. -/
def joinB : ServerState × SocketState × List Output :=
  joinRoom joinA.1 skB "assma-solo" "u1" "Ann" "🤖"

/-- State after the stale socket `skA` disconnects. -/
def afterDisc : ServerState × List Output :=
  disconnectHandler joinB.1 joinA.2.1

/-- Witness for C9 on the concrete rebind scenario in `stSolo`. -/
theorem claim_C9_stale_disconnect_witness :
    joinB.1.userSockets "u1" = some skB.sid ∧
    afterDisc.1.userSockets "u1" = none ∧
    roomHasParticipant afterDisc.1 "assma-solo" "u1" = false ∧
    offerHandler afterDisc.1 skW "u1" "sdpQ" "video-offer" 3 = (afterDisc.1, []) :=
  claim_C9_stale_disconnect stSolo skA skB skW "assma-solo" "u1" "Ann" "🙂"
    "Ann" "🤖" "sdpQ" "video-offer" 3 roomSolo (by rfl) (by decide) (by decide)

end Signaling
